import Mathlib

/-!
Shallow embedding of src/cloudflare/resource_cloudflare_load_balancer.go
(terraform-provider-cloudflare, load-balancer resource).

Modelling conventions:
- Terraform ResourceData is a record of the declared schema fields.
- GetOk on a field reports true exactly when the field holds a non-zero
  value (empty string / 0 / empty set are the zero values involved here).
- The Cloudflare API client is an oracle: a structure of functions from
  request data to Except results.  Each handler additionally returns the
  list of remote calls it performed, in order, so that claims about
  "no remote call is made" are expressible.
- Go maps built by expandGeoPools are modelled as association lists in
  insertion order; the sole map operations the source performs on them are
  membership test, insert of an absent key, and iteration.
- Timestamps are kept as already-formatted strings (the RFC3339Nano
  formatting itself is opaque to every claim).
-/

/-- One record of the pop_pools / region_pools set: a location key
(`pop` or `region` in the Go schema) and its ordered pool-identifier list. -/
structure GeoPoolRecord where
  location : String
  pool_ids : List String
deriving Repr, DecidableEq

/-- cloudflare.LoadBalancer, the remote API request/response structure,
restricted to the fields the resource reads or writes. -/
structure LoadBalancer where
  ID : String := ""
  Name : String := ""
  FallbackPool : String := ""
  DefaultPools : List String := []
  Proxied : Bool := false
  Enabled : Option Bool := none
  TTL : Int := 0
  SteeringPolicy : String := ""
  Persistence : String := ""
  Description : String := ""
  RegionPools : List (String × List String) := []
  PopPools : List (String × List String) := []
  CreatedOn : String := ""
  ModifiedOn : String := ""
deriving Repr, DecidableEq

/-- The schema.ResourceData of this resource: its declared fields plus the
resource id (d.Id()). -/
structure ResourceData where
  zone : String := ""
  zone_id : String := ""
  name : String := ""
  fallback_pool_id : String := ""
  default_pool_ids : List String := []
  session_affinity : String := "none"
  proxied : Bool := false
  enabled : Bool := true
  ttl : Int := 0
  description : String := ""
  steering_policy : String := ""
  pop_pools : List GeoPoolRecord := []
  region_pools : List GeoPoolRecord := []
  created_on : String := ""
  modified_on : String := ""
  id : String := ""
deriving Repr, DecidableEq

/-- A remote API invocation, recorded in the order the handlers perform them. -/
inductive RemoteCall where
  | zoneIDByName (name : String)
  | createLoadBalancer (zoneID : String) (lb : LoadBalancer)
  | modifyLoadBalancer (zoneID : String) (lb : LoadBalancer)
  | loadBalancerDetails (zoneID : String) (loadBalancerID : String)
  | deleteLoadBalancer (zoneID : String) (loadBalancerID : String)
deriving Repr, DecidableEq

/-- The cloudflare.API client as an oracle of its five operations. -/
structure Client where
  zoneIDByName : String → Except String String
  createLoadBalancer : String → LoadBalancer → Except String LoadBalancer
  modifyLoadBalancer : String → LoadBalancer → Except String LoadBalancer
  loadBalancerDetails : String → String → Except String LoadBalancer
  deleteLoadBalancer : String → String → Except String Unit

/-- Error message of expandGeoPools for a duplicated location key. -/
def duplicateLocationMsg (geoType location : String) : String :=
  "duplicate entry specified for " ++ geoType ++ " pool in location \"" ++
    location ++ "\". each location must only be specified once"

/-- Loop body of expandGeoPools: walk the set in list order, keeping the map
built so far; a record whose location is already a key of the map aborts with
the duplicate-entry error, otherwise its entry is inserted. -/
def expandGeoPoolsAux (geoType : String) :
    List GeoPoolRecord → List (String × List String) →
      Except String (List (String × List String))
  | [], expanded => Except.ok expanded
  | r :: rest, expanded =>
    if r.location ∈ expanded.map Prod.fst then
      Except.error (duplicateLocationMsg geoType r.location)
    else
      expandGeoPoolsAux geoType rest (expanded ++ [(r.location, r.pool_ids)])

/-- expandGeoPools: config set of records to API map (association list). -/
def expandGeoPools (pool : List GeoPoolRecord) (geoType : String) :
    Except String (List (String × List String)) :=
  expandGeoPoolsAux geoType pool []

/-- flattenGeoPools: API map to the list of set members handed to
schema.NewSet.  The geoType argument only selects the hashing schema in Go
and does not affect the records produced. -/
def flattenGeoPools (pools : List (String × List String)) (_geoType : String) :
    List GeoPoolRecord :=
  pools.map (fun kv => { location := kv.1, pool_ids := kv.2 })

/-- strings.Contains specialised to the checks the source performs. -/
def charsMatchAt : List Char → List Char → Bool
  | [], _ => true
  | _ :: _, [] => false
  | p :: ps, c :: cs => p == c && charsMatchAt ps cs

/-- Substring search over character lists (strings.Contains). -/
def charsContain : List Char → List Char → Bool
  | [], pat => charsMatchAt pat []
  | c :: cs, pat => charsMatchAt pat (c :: cs) || charsContain cs pat

/-- strings.Contains. -/
def strContains (s pat : String) : Bool :=
  charsContain s.data pat.data

/-- Split a character list at the first slash, when one occurs. -/
def splitFirstSlash : List Char → Option (List Char × List Char)
  | [] => none
  | c :: cs =>
    if c = '/' then some ([], cs)
    else
      match splitFirstSlash cs with
      | some (a, b) => some (c :: a, b)
      | none => none

/-- strings.SplitN(s, "/", 2): two pieces around the first slash, or the
whole string as a single piece when no slash occurs. -/
def splitN2Slash (s : String) : List String :=
  match splitFirstSlash s.data with
  | some (a, b) => [String.mk a, String.mk b]
  | none => [s]

/-- Which of the three checked d.Set calls of Read fail.  In Go a Set
failure leaves the field unwritten; the handler only logs it. -/
structure SetFailures where
  default_pool_ids : Bool := false
  pop_pools : Bool := false
  region_pools : Bool := false
deriving Repr, DecidableEq

/-- An operation outcome: the returned error (if any), the resource data
after all mutations performed, and the remote calls made, in order. -/
abbrev HandlerResult := Except String Unit × ResourceData × List RemoteCall

/-- resourceCloudflareLoadBalancerRead.  On a details error containing
"HTTP status 404" it clears the id and succeeds; on any other details error
it wraps the error (the source passes zoneID into the resource slot of the
message and the load-balancer id into the zone slot, which is kept here);
on success it copies every field into state, where the three checked Set
calls may individually fail without aborting. -/
def resourceCloudflareLoadBalancerRead (client : Client) (sf : SetFailures)
    (d : ResourceData) : HandlerResult :=
  let zoneID := d.zone_id
  let loadBalancerID := d.id
  match client.loadBalancerDetails zoneID loadBalancerID with
  | Except.error e =>
    if strContains e "HTTP status 404" then
      (Except.ok (), { d with id := "" },
        [RemoteCall.loadBalancerDetails zoneID loadBalancerID])
    else
      (Except.error ("Error reading load balancer resource from API for resource "
          ++ zoneID ++ " in zone " ++ loadBalancerID ++ ": " ++ e), d,
        [RemoteCall.loadBalancerDetails zoneID loadBalancerID])
  | Except.ok loadBalancer =>
    let d := { d with
      name := loadBalancer.Name
      fallback_pool_id := loadBalancer.FallbackPool
      proxied := loadBalancer.Proxied
      -- the source dereferences *loadBalancer.Enabled; a nil pointer
      -- (None) would panic there and is outside this model
      enabled := loadBalancer.Enabled.getD false
      description := loadBalancer.Description
      ttl := loadBalancer.TTL
      steering_policy := loadBalancer.SteeringPolicy
      session_affinity := loadBalancer.Persistence
      created_on := loadBalancer.CreatedOn
      modified_on := loadBalancer.ModifiedOn }
    let d := if sf.default_pool_ids then d
      else { d with default_pool_ids := loadBalancer.DefaultPools }
    let d := if sf.pop_pools then d
      else { d with pop_pools := flattenGeoPools loadBalancer.PopPools "pop" }
    let d := if sf.region_pools then d
      else { d with region_pools := flattenGeoPools loadBalancer.RegionPools "region" }
    (Except.ok (), d, [RemoteCall.loadBalancerDetails zoneID loadBalancerID])

/-- The region_pools GetOk block shared verbatim by Create and Update:
when the set is non-empty, expand it and store the result in RegionPools. -/
def applyRegionPools (d : ResourceData) (lb : LoadBalancer) :
    Except String LoadBalancer :=
  if d.region_pools = [] then Except.ok lb
  else
    match expandGeoPools d.region_pools "region" with
    | Except.ok expanded => Except.ok { lb with RegionPools := expanded }
    | Except.error e => Except.error e

/-- The pop_pools GetOk block shared verbatim by Create and Update. -/
def applyPopPools (d : ResourceData) (lb : LoadBalancer) :
    Except String LoadBalancer :=
  if d.pop_pools = [] then Except.ok lb
  else
    match expandGeoPools d.pop_pools "pop" with
    | Except.ok expanded => Except.ok { lb with PopPools := expanded }
    | Except.error e => Except.error e

/-- The two geo-pool GetOk blocks, region then pop, as both Create and
Update perform them in sequence on the request object under construction. -/
def applyGeoPoolBlocks (d : ResourceData) (lb : LoadBalancer) :
    Except String LoadBalancer :=
  match applyRegionPools d lb with
  | Except.error e => Except.error e
  | Except.ok lb =>
    match applyPopPools d lb with
    | Except.error e => Except.error e
    | Except.ok lb => Except.ok lb

/-- The request object Create builds (lines 187-221): struct literal, then
the description and ttl GetOk blocks, then the two geo-pool blocks. -/
def buildCreateLoadBalancer (d : ResourceData) : Except String LoadBalancer :=
  let enabled := d.enabled
  let newLoadBalancer : LoadBalancer := {
    Name := d.name
    FallbackPool := d.fallback_pool_id
    DefaultPools := d.default_pool_ids
    Proxied := d.proxied
    Enabled := some enabled
    TTL := d.ttl
    SteeringPolicy := d.steering_policy
    Persistence := d.session_affinity }
  let newLoadBalancer := if d.description ≠ "" then
      { newLoadBalancer with Description := d.description }
    else newLoadBalancer
  let newLoadBalancer := if d.ttl ≠ 0 then
      { newLoadBalancer with TTL := d.ttl }
    else newLoadBalancer
  applyGeoPoolBlocks d newLoadBalancer

/-- The request object Update builds (lines 256-287): the same struct
literal with the existing id in the ID field, then the description GetOk
block (Update has no ttl re-read), then the two geo-pool blocks. -/
def buildUpdateLoadBalancer (d : ResourceData) : Except String LoadBalancer :=
  let enabled := d.enabled
  let loadBalancer : LoadBalancer := {
    ID := d.id
    Name := d.name
    FallbackPool := d.fallback_pool_id
    DefaultPools := d.default_pool_ids
    Proxied := d.proxied
    Enabled := some enabled
    TTL := d.ttl
    SteeringPolicy := d.steering_policy
    Persistence := d.session_affinity }
  let loadBalancer := if d.description ≠ "" then
      { loadBalancer with Description := d.description }
    else loadBalancer
  applyGeoPoolBlocks d loadBalancer

/-- Tail of Create after the zone id is settled (lines 231-248):
d.Set("zone_id", ...), the creation call, the empty-id check, d.SetId,
then the final Read.  calls holds the remote calls already made. -/
def createAfterZone (client : Client) (sf : SetFailures) (d : ResourceData)
    (zoneID : String) (newLoadBalancer : LoadBalancer)
    (calls : List RemoteCall) : HandlerResult :=
  let d := { d with zone_id := zoneID }
  match client.createLoadBalancer zoneID newLoadBalancer with
  | Except.error e =>
    (Except.error ("error creating load balancer for zone: " ++ e), d,
      calls ++ [RemoteCall.createLoadBalancer zoneID newLoadBalancer])
  | Except.ok r =>
    if r.ID = "" then
      (Except.error "failed to find id in Create response; resource was empty", d,
        calls ++ [RemoteCall.createLoadBalancer zoneID newLoadBalancer])
    else
      let d := { d with id := r.ID }
      let res := resourceCloudflareLoadBalancerRead client sf d
      (res.1, res.2.1,
        calls ++ RemoteCall.createLoadBalancer zoneID newLoadBalancer :: res.2.2)

/-- resourceCloudflareLoadBalancerCreate: zone presence check, request
construction, zone lookup only when zone_id is empty, then createAfterZone. -/
def resourceCloudflareLoadBalancerCreate (client : Client) (sf : SetFailures)
    (d : ResourceData) : HandlerResult :=
  let zoneName := d.zone
  let zoneID := d.zone_id
  if zoneName = "" ∧ zoneID = "" then
    (Except.error "either zone name or ID must be provided", d, [])
  else
    match buildCreateLoadBalancer d with
    | Except.error e => (Except.error e, d, [])
    | Except.ok newLoadBalancer =>
      if zoneID = "" then
        match client.zoneIDByName zoneName with
        | Except.error e =>
          (Except.error ("error finding zone \"" ++ zoneName ++ "\": " ++ e), d,
            [RemoteCall.zoneIDByName zoneName])
        | Except.ok zid =>
          createAfterZone client sf d zid newLoadBalancer
            [RemoteCall.zoneIDByName zoneName]
      else
        createAfterZone client sf d zoneID newLoadBalancer []

/-- resourceCloudflareLoadBalancerUpdate: request construction, the
replacement call keyed by zone_id, then the final Read. -/
def resourceCloudflareLoadBalancerUpdate (client : Client) (sf : SetFailures)
    (d : ResourceData) : HandlerResult :=
  let zoneID := d.zone_id
  match buildUpdateLoadBalancer d with
  | Except.error e => (Except.error e, d, [])
  | Except.ok loadBalancer =>
    match client.modifyLoadBalancer zoneID loadBalancer with
    | Except.error e =>
      (Except.error ("error creating load balancer for zone: " ++ e), d,
        [RemoteCall.modifyLoadBalancer zoneID loadBalancer])
    | Except.ok _ =>
      let res := resourceCloudflareLoadBalancerRead client sf d
      (res.1, res.2.1, RemoteCall.modifyLoadBalancer zoneID loadBalancer :: res.2.2)

/-- resourceCloudflareLoadBalancerDelete. -/
def resourceCloudflareLoadBalancerDelete (client : Client)
    (d : ResourceData) : HandlerResult :=
  let zoneID := d.zone_id
  let loadBalancerID := d.id
  match client.deleteLoadBalancer zoneID loadBalancerID with
  | Except.error e =>
    (Except.error ("error deleting Cloudflare Load Balancer: " ++ e), d,
      [RemoteCall.deleteLoadBalancer zoneID loadBalancerID])
  | Except.ok _ =>
    (Except.ok (), d, [RemoteCall.deleteLoadBalancer zoneID loadBalancerID])

/-- resourceCloudflareLoadBalancerImport: SplitN on the first slash, the
length-2 check, the zone-name lookup, then the three state writes. -/
def resourceCloudflareLoadBalancerImport (client : Client)
    (d : ResourceData) : Except String ResourceData × List RemoteCall :=
  match splitN2Slash d.id with
  | [zoneName, loadBalancerID] =>
    match client.zoneIDByName zoneName with
    | Except.error e =>
      (Except.error ("error finding zoneName \"" ++ zoneName ++ "\": " ++ e),
        [RemoteCall.zoneIDByName zoneName])
    | Except.ok zoneID =>
      (Except.ok { d with zone := zoneName, zone_id := zoneID, id := loadBalancerID },
        [RemoteCall.zoneIDByName zoneName])
  | _ =>
    (Except.error ("invalid id (\"" ++ d.id ++
        "\") specified, should be in format \"zoneName/loadBalancerID\""), [])

/-- Stub client whose calls all succeed, for concrete witnesses. -/
def okClient : Client where
  zoneIDByName := fun _ => Except.ok "zone123"
  createLoadBalancer := fun _ lb => Except.ok { lb with ID := "lb1" }
  modifyLoadBalancer := fun _ lb => Except.ok lb
  loadBalancerDetails := fun _ _ => Except.ok { ID := "lb1", Enabled := some true }
  deleteLoadBalancer := fun _ _ => Except.ok ()

/-- Stub client whose creation call succeeds with an empty identifier. -/
def emptyIDClient : Client :=
  { okClient with createLoadBalancer := fun _ lb => Except.ok { lb with ID := "" } }

/-- Stub client whose details lookup fails with a 404 error text. -/
def notFoundClient : Client :=
  { okClient with loadBalancerDetails := fun _ _ =>
      Except.error "HTTP status 404 from API" }

/-- Stub client whose details lookup fails with a non-404 error text. -/
def failClient : Client :=
  { okClient with loadBalancerDetails := fun _ _ =>
      Except.error "HTTP status 500 from API" }

/-- Resource data a Read witness starts from. -/
def readData : ResourceData := { zone_id := "z1", id := "lb1" }

/-- The request object built from a configuration holding only defaults. -/
def defaultLB : LoadBalancer := { Enabled := some true, Persistence := "none" }


/-! Lemmas about the geo-pool codec. -/

theorem expandGeoPoolsAux_ok_iff (gt : String) (cfg : List GeoPoolRecord) :
    ∀ acc : List (String × List String),
      (∃ m, expandGeoPoolsAux gt cfg acc = Except.ok m) ↔
        ((cfg.map (fun r => r.location)).Nodup ∧
          ∀ r ∈ cfg, r.location ∉ acc.map Prod.fst) := by
  induction cfg with
  | nil => intro acc; simp [expandGeoPoolsAux]
  | cons r rest ih =>
    intro acc
    by_cases hmem : r.location ∈ acc.map Prod.fst
    · simp only [expandGeoPoolsAux, hmem, if_true]
      refine iff_of_false ?_ ?_
      · rintro ⟨m, hm⟩; exact Except.noConfusion hm
      · rintro ⟨-, hall⟩; exact hall r (List.mem_cons_self r rest) hmem
    · have hstep : expandGeoPoolsAux gt (r :: rest) acc =
          expandGeoPoolsAux gt rest (acc ++ [(r.location, r.pool_ids)]) := by
        simp [expandGeoPoolsAux, hmem]
      rw [hstep, ih]
      constructor
      · rintro ⟨hnd, hall⟩
        have hkey : ∀ r' ∈ rest,
            r'.location ∉ acc.map Prod.fst ∧ r'.location ≠ r.location := by
          intro r' hr'
          have h2 := hall r' hr'
          rw [List.map_append] at h2
          simp only [List.map_cons, List.map_nil, List.mem_append,
            List.mem_singleton] at h2
          push_neg at h2
          exact h2
        refine ⟨List.nodup_cons.mpr ⟨?_, hnd⟩, ?_⟩
        · intro hc
          obtain ⟨r', hr', hl⟩ := List.mem_map.mp hc
          exact (hkey r' hr').2 hl
        · intro r' hr'
          rcases List.mem_cons.mp hr' with rfl | hr'
          · exact hmem
          · exact (hkey r' hr').1
      · rintro ⟨hnd, hall⟩
        rw [List.map_cons, List.nodup_cons] at hnd
        refine ⟨hnd.2, ?_⟩
        intro r' hr'
        rw [List.map_append]
        simp only [List.map_cons, List.map_nil, List.mem_append, List.mem_singleton]
        push_neg
        refine ⟨hall r' (List.mem_cons.mpr (Or.inr hr')), ?_⟩
        intro heq
        exact hnd.1 (heq ▸ List.mem_map_of_mem (fun r => r.location) hr')

theorem expandGeoPoolsAux_ok_eq (gt : String) (cfg : List GeoPoolRecord) :
    ∀ acc m, expandGeoPoolsAux gt cfg acc = Except.ok m →
      m = acc ++ cfg.map (fun r => (r.location, r.pool_ids)) := by
  induction cfg with
  | nil =>
    intro acc m h
    simp only [expandGeoPoolsAux, Except.ok.injEq] at h
    simp [← h]
  | cons r rest ih =>
    intro acc m h
    by_cases hmem : r.location ∈ acc.map Prod.fst
    · simp [expandGeoPoolsAux, hmem] at h
    · simp only [expandGeoPoolsAux, hmem, if_false] at h
      have := ih _ _ h
      simp [this]

theorem expandGeoPoolsAux_shape (gt : String) (cfg : List GeoPoolRecord) :
    ∀ acc, (∃ m, expandGeoPoolsAux gt cfg acc = Except.ok m) ∨
      (∃ loc, expandGeoPoolsAux gt cfg acc =
        Except.error (duplicateLocationMsg gt loc)) := by
  induction cfg with
  | nil => intro acc; exact Or.inl ⟨acc, rfl⟩
  | cons r rest ih =>
    intro acc
    by_cases hmem : r.location ∈ acc.map Prod.fst
    · exact Or.inr ⟨r.location, by simp [expandGeoPoolsAux, hmem]⟩
    · simpa [expandGeoPoolsAux, hmem] using ih (acc ++ [(r.location, r.pool_ids)])

theorem lookup_expanded_of_nodup (cfg : List GeoPoolRecord)
    (h : (cfg.map (fun r => r.location)).Nodup) :
    ∀ r ∈ cfg, (cfg.map (fun r => (r.location, r.pool_ids))).lookup r.location
      = some r.pool_ids := by
  induction cfg with
  | nil => intro r hr; cases hr
  | cons a rest ih =>
    intro r hr
    rw [List.map_cons, List.nodup_cons] at h
    rcases List.mem_cons.mp hr with rfl | hr'
    · rw [List.map_cons, List.lookup_cons, beq_self_eq_true]
    · have hne : r.location ≠ a.location := by
        intro heq
        exact h.1 (heq ▸ List.mem_map_of_mem (fun r => r.location) hr')
      rw [List.map_cons, List.lookup_cons,
        show (r.location == a.location) = false from beq_eq_false_iff_ne.mpr hne]
      exact ih h.2 r hr'

/-! Claim theorems about the geo-pool codec. -/

/-- C2: expand fails with the duplicate-location error exactly on inputs in
which some location key occurs in two records (whatever their pool-identifier
lists hold: they are universally quantified inside cfg); on inputs with
pairwise-distinct location keys it returns a map without error. -/
theorem expandGeoPools_duplicate_error_iff (gt : String)
    (cfg : List GeoPoolRecord) :
    (¬ (cfg.map (fun r => r.location)).Nodup →
      ∃ loc, expandGeoPools cfg gt = Except.error (duplicateLocationMsg gt loc)) ∧
    ((cfg.map (fun r => r.location)).Nodup →
      ∃ m, expandGeoPools cfg gt = Except.ok m) := by
  constructor
  · intro hdup
    rcases expandGeoPoolsAux_shape gt cfg [] with ⟨m, hm⟩ | ⟨loc, hl⟩
    · exact absurd ((expandGeoPoolsAux_ok_iff gt cfg []).mp ⟨m, hm⟩).1 hdup
    · exact ⟨loc, hl⟩
  · intro hnd
    exact (expandGeoPoolsAux_ok_iff gt cfg []).mpr ⟨hnd, by simp⟩

theorem expandGeoPools_duplicate_error_iff_witness :
    (∃ loc,
      expandGeoPools [⟨"LAX", ["p1"]⟩, ⟨"LAX", ["p9"]⟩] "pop" =
        Except.error (duplicateLocationMsg "pop" loc)) ∧
    (∃ m,
      expandGeoPools [⟨"LAX", ["p1", "p2"]⟩, ⟨"JFK", ["p3"]⟩] "pop" =
        Except.ok m) :=
  ⟨(expandGeoPools_duplicate_error_iff "pop"
      [⟨"LAX", ["p1"]⟩, ⟨"LAX", ["p9"]⟩]).1 (by decide),
   (expandGeoPools_duplicate_error_iff "pop"
      [⟨"LAX", ["p1", "p2"]⟩, ⟨"JFK", ["p3"]⟩]).2 (by decide)⟩

/-- C6: on an accepted input (expand returned a map), the map is exactly the
records in order as key-value pairs, so it binds each record's location key
to precisely that record's pool-identifier list (element for element, in
order, as lookup shows) and holds no key beyond the records' location keys. -/
theorem expandGeoPools_ok_spec (gt : String) (cfg : List GeoPoolRecord)
    (m : List (String × List String))
    (h : expandGeoPools cfg gt = Except.ok m) :
    m = cfg.map (fun r => (r.location, r.pool_ids)) ∧
    (∀ r ∈ cfg, m.lookup r.location = some r.pool_ids) ∧
    m.map Prod.fst = cfg.map (fun r => r.location) := by
  have hm := expandGeoPoolsAux_ok_eq gt cfg [] m h
  simp only [List.nil_append] at hm
  have hnd := ((expandGeoPoolsAux_ok_iff gt cfg []).mp ⟨m, h⟩).1
  subst hm
  refine ⟨rfl, lookup_expanded_of_nodup cfg hnd, ?_⟩
  simp [List.map_map]

theorem expandGeoPools_ok_spec_witness :
    ([("LAX", ["p1", "p2"]), ("JFK", ["p3"])] :
        List (String × List String)) =
      ([⟨"LAX", ["p1", "p2"]⟩, ⟨"JFK", ["p3"]⟩] :
          List GeoPoolRecord).map (fun r => (r.location, r.pool_ids)) ∧
    (∀ r ∈ ([⟨"LAX", ["p1", "p2"]⟩, ⟨"JFK", ["p3"]⟩] : List GeoPoolRecord),
      ([("LAX", ["p1", "p2"]), ("JFK", ["p3"])] :
        List (String × List String)).lookup r.location = some r.pool_ids) ∧
    ([("LAX", ["p1", "p2"]), ("JFK", ["p3"])] :
        List (String × List String)).map Prod.fst =
      ([⟨"LAX", ["p1", "p2"]⟩, ⟨"JFK", ["p3"]⟩] :
          List GeoPoolRecord).map (fun r => r.location) :=
  expandGeoPools_ok_spec "pop" [⟨"LAX", ["p1", "p2"]⟩, ⟨"JFK", ["p3"]⟩]
    [("LAX", ["p1", "p2"]), ("JFK", ["p3"])] (by rfl)

/-- C1: for an assignment set s with pairwise-distinct location keys,
flattening the map that expanding s produced yields a set of records equal
to s under set semantics: the same records are members of both sides. -/
theorem flattenGeoPools_expandGeoPools_set_roundtrip (gt : String)
    (s : List GeoPoolRecord)
    (_h : (s.map (fun r => r.location)).Nodup)
    (m : List (String × List String))
    (hm : expandGeoPools s gt = Except.ok m) :
    ∀ r, r ∈ flattenGeoPools m gt ↔ r ∈ s := by
  have heq := expandGeoPoolsAux_ok_eq gt s [] m hm
  simp only [List.nil_append] at heq
  subst heq
  intro r
  simp [flattenGeoPools, List.map_map]

/-! Lemmas about the lifecycle handlers. -/

theorem splitFirstSlash_no_slash (s : List Char) (h : '/' ∉ s) :
    splitFirstSlash s = none := by
  induction s with
  | nil => rfl
  | cons c cs ih =>
    simp only [List.mem_cons, not_or] at h
    simp only [splitFirstSlash, if_neg (Ne.symm h.1)]
    rw [ih h.2]

theorem splitFirstSlash_append (a b : List Char) (ha : '/' ∉ a) :
    splitFirstSlash (a ++ '/' :: b) = some (a, b) := by
  induction a with
  | nil => simp [splitFirstSlash]
  | cons c cs ih =>
    simp only [List.mem_cons, not_or] at ha
    simp only [List.cons_append, splitFirstSlash, if_neg (Ne.symm ha.1)]
    rw [show cs.append ('/' :: b) = cs ++ '/' :: b from rfl, ih ha.2]

theorem read_calls_eq (client : Client) (sf : SetFailures) (d : ResourceData) :
    (resourceCloudflareLoadBalancerRead client sf d).2.2 =
      [RemoteCall.loadBalancerDetails d.zone_id d.id] := by
  unfold resourceCloudflareLoadBalancerRead
  rcases h : client.loadBalancerDetails d.zone_id d.id with e | lb
  · by_cases hc : strContains e "HTTP status 404" <;> simp [h, hc]
  · simp [h]

theorem createAfterZone_calls_shape (client : Client) (sf : SetFailures)
    (d : ResourceData) (zid : String) (nlb : LoadBalancer)
    (calls : List RemoteCall) :
    ∀ c ∈ (createAfterZone client sf d zid nlb calls).2.2,
      c ∈ calls ∨ c = RemoteCall.createLoadBalancer zid nlb ∨
        ∃ i, c = RemoteCall.loadBalancerDetails zid i := by
  intro c hc
  unfold createAfterZone at hc
  rcases h : client.createLoadBalancer zid nlb with e | r <;> simp only [h] at hc
  · simp only [List.mem_append, List.mem_singleton] at hc
    rcases hc with hc | hc
    · exact Or.inl hc
    · exact Or.inr (Or.inl hc)
  · by_cases hr : r.ID = ""
    · simp only [if_pos hr, List.mem_append, List.mem_singleton] at hc
      rcases hc with hc | hc
      · exact Or.inl hc
      · exact Or.inr (Or.inl hc)
    · simp only [if_neg hr] at hc
      rw [read_calls_eq] at hc
      simp only [List.mem_append, List.mem_cons, List.mem_singleton,
        List.not_mem_nil, or_false] at hc
      rcases hc with hc | hc | hc
      · exact Or.inl hc
      · exact Or.inr (Or.inl hc)
      · exact Or.inr (Or.inr ⟨_, by simpa using hc⟩)

theorem createAfterZone_calls_mono (client : Client) (sf : SetFailures)
    (d : ResourceData) (zid : String) (nlb : LoadBalancer)
    (calls : List RemoteCall) :
    ∀ c ∈ calls, c ∈ (createAfterZone client sf d zid nlb calls).2.2 := by
  intro c hc
  unfold createAfterZone
  rcases h : client.createLoadBalancer zid nlb with e | r
  · simp only [h, List.mem_append]
    exact Or.inl hc
  · by_cases hr : r.ID = ""
    · simp only [h, if_pos hr, List.mem_append]
      exact Or.inl hc
    · simp only [h, if_neg hr, List.mem_append]
      exact Or.inl hc

theorem applyRegionPools_ID (d : ResourceData) (lb : LoadBalancer) (i : String) :
    applyRegionPools d { lb with ID := i } =
      Except.map (fun x => { x with ID := i }) (applyRegionPools d lb) := by
  unfold applyRegionPools
  by_cases h : d.region_pools = []
  · simp [h, Except.map]
  · rcases he : expandGeoPools d.region_pools "region" with e | ex <;>
      simp [h, he, Except.map]

theorem applyPopPools_ID (d : ResourceData) (lb : LoadBalancer) (i : String) :
    applyPopPools d { lb with ID := i } =
      Except.map (fun x => { x with ID := i }) (applyPopPools d lb) := by
  unfold applyPopPools
  by_cases h : d.pop_pools = []
  · simp [h, Except.map]
  · rcases he : expandGeoPools d.pop_pools "pop" with e | ex <;>
      simp [h, he, Except.map]

theorem applyGeoPoolBlocks_ID (d : ResourceData) (lb : LoadBalancer) (i : String) :
    applyGeoPoolBlocks d { lb with ID := i } =
      Except.map (fun x => { x with ID := i }) (applyGeoPoolBlocks d lb) := by
  unfold applyGeoPoolBlocks
  rw [applyRegionPools_ID]
  rcases h : applyRegionPools d lb with e | x
  · simp [Except.map]
  · simp only [Except.map]
    rw [applyPopPools_ID]
    rcases h2 : applyPopPools d x with e2 | y <;> simp [Except.map]

/-! Claim theorems about the lifecycle handlers. -/

/-- C3: Import splits the composite id on the first slash only: with id
a/b where a holds no slash, the zone name is a and the resource id is the
whole remainder b (any further slashes included), resolved through one
zone lookup; and any id holding no slash at all fails with the invalid-id
error with no remote call made. -/
theorem resourceCloudflareLoadBalancerImport_spec (client : Client)
    (a b z : String) (ha : '/' ∉ a.data)
    (hz : client.zoneIDByName a = Except.ok z)
    (d : ResourceData) (hid : d.id = a ++ "/" ++ b) :
    resourceCloudflareLoadBalancerImport client d =
      (Except.ok { d with zone := a, zone_id := z, id := b },
        [RemoteCall.zoneIDByName a]) ∧
    ∀ d' : ResourceData, '/' ∉ d'.id.data →
      resourceCloudflareLoadBalancerImport client d' =
        (Except.error ("invalid id (\"" ++ d'.id ++
          "\") specified, should be in format \"zoneName/loadBalancerID\""), []) := by
  constructor
  · have hsplit : splitN2Slash d.id = [a, b] := by
      rw [hid]
      unfold splitN2Slash
      have hdata : (a ++ "/" ++ b).data = a.data ++ '/' :: b.data := by
        rw [show (a ++ "/" ++ b).data = (a.data ++ ['/']) ++ b.data from rfl]
        simp
      rw [hdata, splitFirstSlash_append a.data b.data ha]
    unfold resourceCloudflareLoadBalancerImport
    rw [hsplit]
    simp [hz]
  · intro d' hd'
    have hsplit : splitN2Slash d'.id = [d'.id] := by
      unfold splitN2Slash
      rw [splitFirstSlash_no_slash d'.id.data hd']
    unfold resourceCloudflareLoadBalancerImport
    rw [hsplit]

theorem resourceCloudflareLoadBalancerImport_spec_witness :
    resourceCloudflareLoadBalancerImport okClient { id := "myzone/abc123" } =
      (Except.ok { zone := "myzone", zone_id := "zone123", id := "abc123" },
        [RemoteCall.zoneIDByName "myzone"]) ∧
    resourceCloudflareLoadBalancerImport okClient { id := "abc123" } =
      (Except.error ("invalid id (\"abc123\") specified, should be in format \"zoneName/loadBalancerID\""),
        []) :=
  ⟨(resourceCloudflareLoadBalancerImport_spec okClient "myzone" "abc123"
      "zone123" (by decide) rfl { id := "myzone/abc123" } rfl).1,
   (resourceCloudflareLoadBalancerImport_spec okClient "myzone" "abc123"
      "zone123" (by decide) rfl { id := "myzone/abc123" } rfl).2
      { id := "abc123" } (by decide)⟩

/-- C4: with both zone name and zone id empty, Create fails with the
missing-zone error, leaves the resource data untouched, and performs no
remote call at all. -/
theorem resourceCloudflareLoadBalancerCreate_missing_zone (client : Client)
    (sf : SetFailures) (d : ResourceData)
    (hz : d.zone = "") (hzid : d.zone_id = "") :
    resourceCloudflareLoadBalancerCreate client sf d =
      (Except.error "either zone name or ID must be provided", d, []) := by
  simp [resourceCloudflareLoadBalancerCreate, hz, hzid]

theorem resourceCloudflareLoadBalancerCreate_missing_zone_witness :
    resourceCloudflareLoadBalancerCreate okClient {} {} =
      (Except.error "either zone name or ID must be provided", {}, []) :=
  resourceCloudflareLoadBalancerCreate_missing_zone okClient {} {} rfl rfl

/-- C5: when the details lookup fails with an error text containing
"HTTP status 404", Read clears the id and returns no error; on any other
lookup failure it returns the wrapped error and leaves the data unchanged. -/
theorem resourceCloudflareLoadBalancerRead_error_spec (client : Client)
    (sf : SetFailures) (d : ResourceData) (e : String)
    (herr : client.loadBalancerDetails d.zone_id d.id = Except.error e) :
    (strContains e "HTTP status 404" = true →
      resourceCloudflareLoadBalancerRead client sf d =
        (Except.ok (), { d with id := "" },
          [RemoteCall.loadBalancerDetails d.zone_id d.id])) ∧
    (strContains e "HTTP status 404" = false →
      resourceCloudflareLoadBalancerRead client sf d =
        (Except.error ("Error reading load balancer resource from API for resource "
            ++ d.zone_id ++ " in zone " ++ d.id ++ ": " ++ e), d,
          [RemoteCall.loadBalancerDetails d.zone_id d.id])) := by
  constructor <;> intro hc <;>
    simp [resourceCloudflareLoadBalancerRead, herr, hc]

theorem resourceCloudflareLoadBalancerRead_error_spec_witness :
    resourceCloudflareLoadBalancerRead notFoundClient {} readData =
      (Except.ok (), { readData with id := "" },
        [RemoteCall.loadBalancerDetails "z1" "lb1"]) ∧
    resourceCloudflareLoadBalancerRead failClient {} readData =
      (Except.error "Error reading load balancer resource from API for resource z1 in zone lb1: HTTP status 500 from API",
        readData, [RemoteCall.loadBalancerDetails "z1" "lb1"]) :=
  ⟨(resourceCloudflareLoadBalancerRead_error_spec notFoundClient {} readData
      "HTTP status 404 from API" rfl).1 (by decide),
   (resourceCloudflareLoadBalancerRead_error_spec failClient {} readData
      "HTTP status 500 from API" rfl).2 (by decide)⟩

/-- C9: when the details lookup succeeds, Read returns no error whatever
subset of the checked Set calls (default_pool_ids, pop_pools, region_pools)
fails: sf ranges over all failure combinations. -/
theorem resourceCloudflareLoadBalancerRead_set_failures_ok (client : Client)
    (sf : SetFailures) (d : ResourceData) (lb : LoadBalancer)
    (h : client.loadBalancerDetails d.zone_id d.id = Except.ok lb) :
    (resourceCloudflareLoadBalancerRead client sf d).1 = Except.ok () := by
  simp [resourceCloudflareLoadBalancerRead, h]

theorem resourceCloudflareLoadBalancerRead_set_failures_ok_witness :
    (resourceCloudflareLoadBalancerRead okClient
      { default_pool_ids := true, pop_pools := true, region_pools := true }
      readData).1 = Except.ok () :=
  resourceCloudflareLoadBalancerRead_set_failures_ok okClient
    { default_pool_ids := true, pop_pools := true, region_pools := true }
    readData { ID := "lb1", Enabled := some true } rfl

/-- C8: when the remote creation call succeeds but the response carries an
empty identifier, Create fails with the empty-response error and the local
resource identifier keeps its prior value.  The hzone hypothesis covers
both zone paths: an explicit non-empty zone_id, or a zone name resolved by
lookup. -/
theorem resourceCloudflareLoadBalancerCreate_empty_response_id
    (client : Client) (sf : SetFailures) (d : ResourceData)
    (zid : String) (nlb : LoadBalancer) (r : LoadBalancer)
    (hzone : (d.zone_id ≠ "" ∧ zid = d.zone_id) ∨
      (d.zone_id = "" ∧ d.zone ≠ "" ∧
        client.zoneIDByName d.zone = Except.ok zid))
    (hbuild : buildCreateLoadBalancer d = Except.ok nlb)
    (hcall : client.createLoadBalancer zid nlb = Except.ok r)
    (hr : r.ID = "") :
    (resourceCloudflareLoadBalancerCreate client sf d).1 =
      Except.error "failed to find id in Create response; resource was empty" ∧
    (resourceCloudflareLoadBalancerCreate client sf d).2.1.id = d.id := by
  rcases hzone with ⟨hzid, rfl⟩ | ⟨hzid, hzn, hz⟩
  · have hcond : ¬(d.zone = "" ∧ d.zone_id = "") := fun hcc => hzid hcc.2
    simp [resourceCloudflareLoadBalancerCreate, hcond, hbuild, hzid,
      createAfterZone, hcall, hr]
  · simp [resourceCloudflareLoadBalancerCreate, hzn, hbuild, hzid, hz,
      createAfterZone, hcall, hr]

theorem resourceCloudflareLoadBalancerCreate_empty_response_id_witness :
    (resourceCloudflareLoadBalancerCreate emptyIDClient {}
      { zone_id := "z1" }).1 =
      Except.error "failed to find id in Create response; resource was empty" ∧
    (resourceCloudflareLoadBalancerCreate emptyIDClient {}
      { zone_id := "z1" }).2.1.id = ({ zone_id := "z1" } : ResourceData).id :=
  resourceCloudflareLoadBalancerCreate_empty_response_id emptyIDClient {}
    { zone_id := "z1" } "z1" defaultLB { defaultLB with ID := "" }
    (Or.inl ⟨by decide, rfl⟩) rfl rfl rfl

/-- C10: when zone_id is non-empty, Create performs no zone-name lookup
(whatever zone holds) and every creation call it makes is keyed by that
zone_id as-is; when zone_id is empty (and the handler gets past the zone
check and request construction), the zone-name lookup is performed. -/
theorem resourceCloudflareLoadBalancerCreate_zone_lookup_usage
    (client : Client) (sf : SetFailures) (d : ResourceData) :
    (d.zone_id ≠ "" →
      (∀ n, RemoteCall.zoneIDByName n ∉
        (resourceCloudflareLoadBalancerCreate client sf d).2.2) ∧
      (∀ z lb, RemoteCall.createLoadBalancer z lb ∈
          (resourceCloudflareLoadBalancerCreate client sf d).2.2 →
        z = d.zone_id)) ∧
    (d.zone_id = "" → d.zone ≠ "" →
      (∃ nlb, buildCreateLoadBalancer d = Except.ok nlb) →
      RemoteCall.zoneIDByName d.zone ∈
        (resourceCloudflareLoadBalancerCreate client sf d).2.2) := by
  constructor
  · intro hzid
    have hcond : ¬(d.zone = "" ∧ d.zone_id = "") := fun hcc => hzid hcc.2
    rcases hb : buildCreateLoadBalancer d with e | nlb
    · have hlog : (resourceCloudflareLoadBalancerCreate client sf d).2.2 =
          ([] : List RemoteCall) := by
        simp [resourceCloudflareLoadBalancerCreate, hcond, hb]
      rw [hlog]
      exact ⟨fun n hn => (List.not_mem_nil _ hn), fun z lb hm => absurd hm (List.not_mem_nil _)⟩
    · have hlog : (resourceCloudflareLoadBalancerCreate client sf d).2.2 =
          (createAfterZone client sf d d.zone_id nlb []).2.2 := by
        simp [resourceCloudflareLoadBalancerCreate, hcond, hb, hzid]
      rw [hlog]
      constructor
      · intro n hn
        rcases createAfterZone_calls_shape client sf d d.zone_id nlb [] _ hn with
          h1 | h2 | ⟨i, h3⟩
        · exact List.not_mem_nil _ h1
        · exact RemoteCall.noConfusion h2
        · exact RemoteCall.noConfusion h3
      · intro z lb hm
        rcases createAfterZone_calls_shape client sf d d.zone_id nlb [] _ hm with
          h1 | h2 | ⟨i, h3⟩
        · exact absurd h1 (List.not_mem_nil _)
        · rw [RemoteCall.createLoadBalancer.injEq] at h2
          exact h2.1
        · exact RemoteCall.noConfusion h3
  · rintro hzid hzn ⟨nlb, hb⟩
    rcases hz : client.zoneIDByName d.zone with e | zid
    · simp [resourceCloudflareLoadBalancerCreate, hzn, hb, hzid, hz]
    · have hlog : (resourceCloudflareLoadBalancerCreate client sf d).2.2 =
          (createAfterZone client sf d zid nlb
            [RemoteCall.zoneIDByName d.zone]).2.2 := by
        simp [resourceCloudflareLoadBalancerCreate, hzn, hb, hzid, hz]
      rw [hlog]
      exact createAfterZone_calls_mono client sf d zid nlb
        [RemoteCall.zoneIDByName d.zone] _ (List.mem_singleton_self _)

theorem resourceCloudflareLoadBalancerCreate_zone_lookup_usage_witness :
    RemoteCall.zoneIDByName "example.com" ∈
      (resourceCloudflareLoadBalancerCreate okClient {}
        { zone := "example.com" }).2.2 :=
  (resourceCloudflareLoadBalancerCreate_zone_lookup_usage okClient {}
    { zone := "example.com" }).2 rfl (by decide) ⟨defaultLB, rfl⟩

/-- C7: the request object Update builds equals, field for field, the one
Create would build from the same configuration, with the sole change of the
existing resource identifier placed in the ID field. -/
theorem buildUpdateLoadBalancer_eq_create_with_id (d : ResourceData) :
    buildUpdateLoadBalancer d =
      Except.map (fun lb => { lb with ID := d.id })
        (buildCreateLoadBalancer d) := by
  simp only [buildUpdateLoadBalancer, buildCreateLoadBalancer]
  by_cases hd : d.description = ""
  · rw [if_neg (not_not_intro hd), if_neg (not_not_intro hd)]
    by_cases ht : d.ttl = 0
    · rw [if_neg (not_not_intro ht)]
      exact applyGeoPoolBlocks_ID d
        { Name := d.name, FallbackPool := d.fallback_pool_id,
          DefaultPools := d.default_pool_ids, Proxied := d.proxied,
          Enabled := some d.enabled, TTL := d.ttl,
          SteeringPolicy := d.steering_policy,
          Persistence := d.session_affinity } d.id
    · rw [if_pos ht]
      exact applyGeoPoolBlocks_ID d
        { Name := d.name, FallbackPool := d.fallback_pool_id,
          DefaultPools := d.default_pool_ids, Proxied := d.proxied,
          Enabled := some d.enabled, TTL := d.ttl,
          SteeringPolicy := d.steering_policy,
          Persistence := d.session_affinity } d.id
  · rw [if_pos hd, if_pos hd]
    by_cases ht : d.ttl = 0
    · rw [if_neg (not_not_intro ht)]
      exact applyGeoPoolBlocks_ID d
        { Name := d.name, FallbackPool := d.fallback_pool_id,
          DefaultPools := d.default_pool_ids, Proxied := d.proxied,
          Enabled := some d.enabled, TTL := d.ttl,
          SteeringPolicy := d.steering_policy,
          Persistence := d.session_affinity,
          Description := d.description } d.id
    · rw [if_pos ht]
      exact applyGeoPoolBlocks_ID d
        { Name := d.name, FallbackPool := d.fallback_pool_id,
          DefaultPools := d.default_pool_ids, Proxied := d.proxied,
          Enabled := some d.enabled, TTL := d.ttl,
          SteeringPolicy := d.steering_policy,
          Persistence := d.session_affinity,
          Description := d.description } d.id

theorem flattenGeoPools_expandGeoPools_set_roundtrip_witness :
    (⟨"LAX", ["p1", "p2"]⟩ : GeoPoolRecord) ∈
        flattenGeoPools [("LAX", ["p1", "p2"]), ("JFK", ["p3"])] "pop" ↔
      (⟨"LAX", ["p1", "p2"]⟩ : GeoPoolRecord) ∈
        ([⟨"LAX", ["p1", "p2"]⟩, ⟨"JFK", ["p3"]⟩] : List GeoPoolRecord) :=
  flattenGeoPools_expandGeoPools_set_roundtrip "pop"
    [⟨"LAX", ["p1", "p2"]⟩, ⟨"JFK", ["p3"]⟩] (by decide)
    [("LAX", ["p1", "p2"]), ("JFK", ["p3"])] (by rfl) ⟨"LAX", ["p1", "p2"]⟩
